import Mathlib

/-!
Verification of the Downloadspy Telegram bot (Python) against its
specification. The Python strings are embedded as lists of characters
(`Str`), and the string operations the handlers rely on —
`str.split('_')`, `'_'.join(...)`, `str.replace(pat, '')`, character
filtering and `str.rstrip()` — are embedded as executable Lean
functions with the same semantics. The handlers themselves
(`youtube_handler`, `quality_callback`, `saavn_handler`'s search
branch, `format_selection`, `SaavnDownloader.download_song`) are
embedded as pure functions from their inputs (callback payload,
metadata, the responses of the external services, whether the chat
transport accepts the attachment) to the list of observable effects
they perform, in program order.
-/

/-- A Python string, embedded as its list of characters. -/
abbrev Str := List Char

/-! ## Python string primitives -/

/-- Python `s.split(sep)` for a one-character separator: every occurrence
of `sep` splits, empty pieces are kept, and `''.split(sep) == ['']`. -/
def pySplitChar (sep : Char) : Str → List Str
  | [] => [[]]
  | c :: rest =>
    if c = sep then [] :: pySplitChar sep rest
    else
      match pySplitChar sep rest with
      | [] => [[c]]
      | p :: ps => (c :: p) :: ps

/-- Python `sep.join(parts)` for a one-character separator. -/
def pyJoin (sep : Char) : List Str → Str
  | [] => []
  | [s] => s
  | s :: rest => s ++ sep :: pyJoin sep rest

theorem pySplitChar_ne_nil (sep : Char) (s : Str) : pySplitChar sep s ≠ [] := by
  cases s with
  | nil => simp [pySplitChar]
  | cons c rest =>
    simp only [pySplitChar]
    split
    · simp
    · split <;> simp

theorem pySplitChar_append (sep : Char) (a rest : Str) (ha : sep ∉ a) :
    pySplitChar sep (a ++ sep :: rest) = a :: pySplitChar sep rest := by
  induction a with
  | nil => simp [pySplitChar]
  | cons c a ih =>
    have hc : ¬ c = sep := fun h => ha (h ▸ List.mem_cons_self c a)
    have ha' : sep ∉ a := fun h => ha (List.mem_cons_of_mem c h)
    simp only [List.cons_append, pySplitChar, if_neg hc]
    rw [show a.append (sep :: rest) = a ++ sep :: rest from rfl, ih ha']

theorem pyJoin_cons (sep : Char) (c : Char) (p : Str) (ps : List Str) :
    pyJoin sep ((c :: p) :: ps) = c :: pyJoin sep (p :: ps) := by
  cases ps <;> simp [pyJoin]

theorem pyJoin_pySplitChar (sep : Char) (u : Str) :
    pyJoin sep (pySplitChar sep u) = u := by
  induction u with
  | nil => rfl
  | cons c rest ih =>
    obtain ⟨p, ps, hps⟩ := List.exists_cons_of_ne_nil (pySplitChar_ne_nil sep rest)
    by_cases hc : c = sep
    · subst hc
      simp only [pySplitChar, if_pos rfl, hps]
      rw [hps] at ih
      simp [pyJoin, ih]
    · simp only [pySplitChar, if_neg hc, hps, pyJoin_cons]
      rw [hps] at ih
      simp [ih]

/-! ## Callback payload encoding and decoding (src/handlers.py)

`youtube_handler` encodes the quality buttons as
`f"quality_yt_{q}_{url}"` (lines 87 and 90); `quality_callback` decodes
with `data = query.data.split('_')`, reads `data[1]` and `data[2]`, and
rebuilds the identifier with `'_'.join(data[3:])` (lines 162-168). -/

/-- The callback payload `f"quality_{platform}_{quality}_{url}"`. -/
def quality_payload (platform quality url : Str) : Str :=
  "quality".toList ++ '_' :: (platform ++ '_' :: (quality ++ '_' :: url))

/-- The decode step of `quality_callback` (src/handlers.py lines 162-168):
split on `'_'`, bail out on fewer than 4 parts, take parts 1 and 2, and
re-join parts 3 onward with `'_'`. -/
def decode_quality_payload (data : Str) : Option (Str × Str × Str) :=
  let parts := pySplitChar '_' data
  if parts.length < 4 then none
  else some (parts.getD 1 [], parts.getD 2 [], pyJoin '_' (parts.drop 3))

theorem pySplitChar_quality_payload (platform quality url : Str)
    (hp : '_' ∉ platform) (hq : '_' ∉ quality) :
    pySplitChar '_' (quality_payload platform quality url) =
      "quality".toList :: platform :: quality :: pySplitChar '_' url := by
  unfold quality_payload
  rw [pySplitChar_append '_' "quality".toList _ (by decide),
    pySplitChar_append '_' platform _ hp,
    pySplitChar_append '_' quality _ hq]

/-- C2: for platform and quality strings without `'_'` and any url
(underscores allowed), decoding the encoded payload recovers all three
components exactly. -/
theorem quality_payload_roundtrip (platform quality url : Str)
    (hp : '_' ∉ platform) (hq : '_' ∉ quality) :
    decode_quality_payload (quality_payload platform quality url) =
      some (platform, quality, url) := by
  have hs := pySplitChar_quality_payload platform quality url hp hq
  have hlen : 0 < (pySplitChar '_' url).length :=
    List.length_pos.mpr (pySplitChar_ne_nil '_' url)
  unfold decode_quality_payload
  rw [hs]
  have h4 : ¬ ("quality".toList :: platform :: quality ::
      pySplitChar '_' url).length < 4 := by
    simp only [List.length_cons]
    omega
  rw [if_neg h4]
  simp [pyJoin_pySplitChar]

/-- C2 witness: the spec's own example payload round-trips. -/
theorem quality_payload_roundtrip_witness :
    decode_quality_payload
        (quality_payload "yt".toList "720".toList "https://youtu.be/XXXX".toList) =
      some ("yt".toList, "720".toList, "https://youtu.be/XXXX".toList) :=
  quality_payload_roundtrip "yt".toList "720".toList "https://youtu.be/XXXX".toList
    (by decide) (by decide)

/-! ## Python `str.replace(pat, "")` (used by `format_selection`)

`format_selection` decodes its payload with
`url = query.data.replace("format_saavn_", "")` (src/handlers.py line
207); `saavn_handler` encodes the buttons as
`f"format_saavn_{song['url']}"` (line 151). Python's `replace` removes
every non-overlapping occurrence, scanning left to right. The embedding
recurses on a fuel equal to the string length, which suffices because
every step consumes at least one character. -/

/-- One left-to-right scan removing each occurrence of `pat` (the
behaviour of Python `s.replace(pat, "")` for a non-empty `pat`). `fuel`
bounds the recursion; `py_replace_del` supplies `s.length`, which is
enough fuel. -/
def replace_del_fuel (pat : Str) : Nat → Str → Str
  | 0, s => s
  | _ + 1, [] => []
  | fuel + 1, c :: rest =>
    if pat.isPrefixOf (c :: rest) && !pat.isEmpty then
      replace_del_fuel pat fuel (rest.drop (pat.length - 1))
    else
      c :: replace_del_fuel pat fuel rest

/-- Python `s.replace(pat, "")` for a non-empty `pat`. -/
def py_replace_del (pat s : Str) : Str :=
  replace_del_fuel pat s.length s

/-- Python `pat in s` (substring containment). -/
def containsSub (pat : Str) : Str → Bool
  | [] => pat.isEmpty
  | c :: rest => pat.isPrefixOf (c :: rest) || containsSub pat rest

theorem replace_del_fuel_nil (pat : Str) (f : Nat) :
    replace_del_fuel pat f [] = [] := by
  cases f <;> rfl

theorem replace_del_fuel_congr (pat : Str) :
    ∀ f₁ f₂ s, s.length ≤ f₁ → s.length ≤ f₂ →
      replace_del_fuel pat f₁ s = replace_del_fuel pat f₂ s := by
  intro f₁
  induction f₁ with
  | zero =>
    intro f₂ s h₁ _
    rw [List.length_eq_zero.mp (Nat.le_zero.mp h₁)]
    exact (replace_del_fuel_nil pat f₂).symm
  | succ f₁ ih =>
    intro f₂ s h₁ h₂
    cases s with
    | nil => rw [replace_del_fuel_nil, replace_del_fuel_nil]
    | cons c rest =>
      cases f₂ with
      | zero => simp at h₂
      | succ f₂ =>
        simp only [replace_del_fuel]
        simp only [List.length_cons, Nat.succ_le_succ_iff] at h₁ h₂
        have hd : (rest.drop (pat.length - 1)).length ≤ rest.length := by
          rw [List.length_drop]
          exact Nat.sub_le _ _
        split
        · exact ih f₂ _ (le_trans hd h₁) (le_trans hd h₂)
        · rw [ih f₂ rest h₁ h₂]

theorem isPrefixOf_append_self (p t : Str) : p.isPrefixOf (p ++ t) = true := by
  induction p with
  | nil => simp
  | cons a p ih => simp [List.isPrefixOf, ih]

/-- If `pat` occurs nowhere in `u`, removing its occurrences leaves `u`. -/
theorem py_replace_del_of_not_contains (pat : Str) (u : Str)
    (h : containsSub pat u = false) : py_replace_del pat u = u := by
  induction u with
  | nil => rfl
  | cons c rest ih =>
    simp only [containsSub, Bool.or_eq_false_iff] at h
    unfold py_replace_del
    simp only [List.length_cons, replace_del_fuel, h.1, Bool.false_and,
      if_neg (Bool.false_ne_true)]
    exact congrArg (c :: ·) (ih h.2)

/-- The saavn song button payload `f"format_saavn_{song['url']}"`
(src/handlers.py line 151). -/
def format_payload (songUrl : Str) : Str :=
  "format_saavn_".toList ++ songUrl

/-- The decode step of `format_selection` (src/handlers.py line 207):
`url = query.data.replace("format_saavn_", "")`. -/
def decode_format_payload (data : Str) : Str :=
  py_replace_del "format_saavn_".toList data

/-- C5 counterexample: a song url that itself contains the literal
`"format_saavn_"` does not round-trip, because Python `replace` removes
every occurrence, not only the leading one. -/
theorem format_payload_not_roundtrip :
    decode_format_payload (format_payload "format_saavn_x".toList) = "x".toList ∧
      decode_format_payload (format_payload "format_saavn_x".toList) ≠
        "format_saavn_x".toList := by
  constructor <;> decide

/-- C5 amended: the encoding round-trips for every song url that does not
contain the literal marker `"format_saavn_"` — in particular for every
url that merely contains the delimiter `'_'`. -/
theorem format_payload_roundtrip_amended (u : Str)
    (h : containsSub "format_saavn_".toList u = false) :
    decode_format_payload (format_payload u) = u := by
  unfold decode_format_payload format_payload py_replace_del
  have hcons : "format_saavn_".toList ++ u = 'f' :: ("ormat_saavn_".toList ++ u) :=
    rfl
  have hlen : ("format_saavn_".toList ++ u).length = (12 + u.length) + 1 := by
    rw [List.length_append, show ("format_saavn_".toList : Str).length = 13 from rfl]
    omega
  rw [hlen, hcons]
  have hpre : "format_saavn_".toList.isPrefixOf
      ('f' :: ("ormat_saavn_".toList ++ u)) = true := by
    rw [← hcons]
    exact isPrefixOf_append_self _ _
  simp only [replace_del_fuel, hpre, Bool.true_and,
    show (!List.isEmpty "format_saavn_".toList) = true from rfl, if_true]
  rw [show ("format_saavn_".toList : Str).length - 1 =
      ("ormat_saavn_".toList : Str).length from rfl]
  rw [List.drop_left]
  rw [replace_del_fuel_congr "format_saavn_".toList (12 + u.length) u.length u
    (by omega) (le_refl _)]
  exact py_replace_del_of_not_contains _ u h

/-- C5 amended witness: a url containing underscores (but not the
marker) round-trips exactly. -/
theorem format_payload_roundtrip_amended_witness :
    decode_format_payload
        (format_payload "https://www.jiosaavn.com/song/tere_vaaste/OgwhbhtDRwM".toList) =
      "https://www.jiosaavn.com/song/tere_vaaste/OgwhbhtDRwM".toList :=
  format_payload_roundtrip_amended
    "https://www.jiosaavn.com/song/tere_vaaste/OgwhbhtDRwM".toList (by decide)

/-! ## Safe filenames (src/saavn-downloader.py lines 84-87)

`download_song` builds
`safe_title = "".join([c for c in title if c.isalpha() or c.isdigit() or c==' ']).rstrip()`
(same for the artist) and `filename = f"{safe_title} - {safe_artist}.mp3"`. -/

/-- The character predicate of the comprehension:
`c.isalpha() or c.isdigit() or c == ' '`. -/
def is_allowed (c : Char) : Bool :=
  c.isAlpha || c.isDigit || c == ' '

/-- Python `s.rstrip()`: remove trailing whitespace. -/
def py_rstrip (s : Str) : Str :=
  (s.reverse.dropWhile Char.isWhitespace).reverse

/-- The sanitisation applied to the title and the artist. -/
def sanitize (s : Str) : Str :=
  py_rstrip (s.filter is_allowed)

/-- `f"{safe_title} - {safe_artist}.mp3"`. -/
def download_filename (title artist : Str) : Str :=
  sanitize title ++ " - ".toList ++ sanitize artist ++ ".mp3".toList

/-- The number of positions of `s` at which `pat` occurs. -/
def countOccur (pat : Str) : Str → Nat
  | [] => 0
  | c :: rest =>
    (if pat.isPrefixOf (c :: rest) then 1 else 0) + countOccur pat rest

/-- `true` when the string is empty or its last character is not
whitespace (Python's post-`rstrip` guarantee). -/
def no_trailing_ws (s : Str) : Bool :=
  match s.getLast? with
  | none => true
  | some c => !c.isWhitespace

theorem mem_of_mem_dropWhile (p : Char → Bool) (l : Str) (c : Char)
    (h : c ∈ l.dropWhile p) : c ∈ l := by
  induction l with
  | nil => simp [List.dropWhile] at h
  | cons a l ih =>
    rw [List.dropWhile_cons] at h
    split at h
    · exact List.mem_cons_of_mem a (ih h)
    · exact h

theorem mem_of_mem_py_rstrip (l : Str) (c : Char) (h : c ∈ py_rstrip l) :
    c ∈ l := by
  unfold py_rstrip at h
  rw [List.mem_reverse] at h
  exact List.mem_reverse.mp (mem_of_mem_dropWhile _ _ _ h)

theorem mem_sanitize_allowed (s : Str) (c : Char) (h : c ∈ sanitize s) :
    is_allowed c = true :=
  (List.mem_filter.mp (mem_of_mem_py_rstrip _ c h)).2

theorem head_dropWhile_not (p : Char → Bool) (l : Str) (c : Char)
    (h : (l.dropWhile p).head? = some c) : p c = false := by
  induction l with
  | nil => simp [List.dropWhile] at h
  | cons a l ih =>
    by_cases hp : p a = true
    · rw [List.dropWhile_cons, if_pos hp] at h
      exact ih h
    · rw [List.dropWhile_cons, if_neg hp] at h
      simp only [List.head?_cons, Option.some.injEq] at h
      subst h
      simpa using hp

theorem countOccur_cons_pos (pat : Str) (c : Char) (rest : Str)
    (h : pat.isPrefixOf (c :: rest) = true) :
    countOccur pat (c :: rest) = 1 + countOccur pat rest := by
  rw [show countOccur pat (c :: rest) =
    (if pat.isPrefixOf (c :: rest) then 1 else 0) + countOccur pat rest from rfl, h]
  simp

theorem countOccur_cons_neg (pat : Str) (c : Char) (rest : Str)
    (h : pat.isPrefixOf (c :: rest) = false) :
    countOccur pat (c :: rest) = countOccur pat rest := by
  rw [show countOccur pat (c :: rest) =
    (if pat.isPrefixOf (c :: rest) then 1 else 0) + countOccur pat rest from rfl, h]
  simp

theorem sep_marker_not_at_head (t : Str) (ht : '-' ∉ t) :
    List.isPrefixOf ['-', ' '] t = false := by
  cases t with
  | nil => rfl
  | cons d ys =>
    have hne : ('-' == d) = false := beq_eq_false_iff_ne.mpr
      (fun he => ht (by rw [he]; exact List.mem_cons_self d ys))
    simp [List.isPrefixOf, hne]

theorem countOccur_sep_eq_zero (y : Str) (hy : '-' ∉ y) :
    countOccur " - ".toList y = 0 := by
  induction y with
  | nil => rfl
  | cons d ys ih =>
    have hys : '-' ∉ ys := fun h => hy (List.mem_cons_of_mem d h)
    have hpre : (" - ".toList).isPrefixOf (d :: ys) = false := by
      show ((' ' == d) && List.isPrefixOf ['-', ' '] ys) = false
      rw [sep_marker_not_at_head ys hys, Bool.and_false]
    rw [countOccur_cons_neg _ _ _ hpre]
    exact ih hys

theorem countOccur_sep_once (x y : Str) (hx : '-' ∉ x) (hy : '-' ∉ y) :
    countOccur " - ".toList (x ++ (" - ".toList ++ y)) = 1 := by
  induction x with
  | nil =>
    have h1 : (" - ".toList).isPrefixOf (' ' :: '-' :: ' ' :: y) = true := by
      simp [List.isPrefixOf]
    have h2 : (" - ".toList).isPrefixOf ('-' :: ' ' :: y) = false := by
      simp [List.isPrefixOf]
    have h3 : (" - ".toList).isPrefixOf (' ' :: y) = false := by
      show ((' ' == ' ') && List.isPrefixOf ['-', ' '] y) = false
      rw [sep_marker_not_at_head y hy, Bool.and_false]
    show countOccur " - ".toList (' ' :: '-' :: ' ' :: y) = 1
    rw [countOccur_cons_pos _ _ _ h1, countOccur_cons_neg _ _ _ h2,
      countOccur_cons_neg _ _ _ h3, countOccur_sep_eq_zero y hy]
  | cons c x ih =>
    have hx' : '-' ∉ x := fun h => hx (List.mem_cons_of_mem c h)
    have hmid : List.isPrefixOf ['-', ' '] (x ++ (" - ".toList ++ y)) = false := by
      cases x with
      | nil => simp [List.isPrefixOf]
      | cons a xs =>
        have hne : ('-' == a) = false := beq_eq_false_iff_ne.mpr
          (fun he => hx' (by rw [he]; exact List.mem_cons_self a xs))
        simp [List.isPrefixOf, hne]
    have hpre : (" - ".toList).isPrefixOf
        (c :: (x ++ (" - ".toList ++ y))) = false := by
      show ((' ' == c) && List.isPrefixOf ['-', ' '] (x ++ (" - ".toList ++ y))) =
        false
      rw [hmid, Bool.and_false]
    show countOccur " - ".toList (c :: (x ++ (" - ".toList ++ y))) = 1
    rw [countOccur_cons_neg _ _ _ hpre]
    exact ih hx'

theorem no_trailing_ws_py_rstrip (s : Str) :
    no_trailing_ws (py_rstrip s) = true := by
  unfold no_trailing_ws
  cases h : (py_rstrip s).getLast? with
  | none => rfl
  | some c =>
    unfold py_rstrip at h
    rw [List.getLast?_reverse] at h
    simp [head_dropWhile_not Char.isWhitespace s.reverse c h]

theorem not_dash_mem_sanitize (s : Str) : '-' ∉ sanitize s :=
  fun h => absurd (mem_sanitize_allowed s '-' h) (by decide)

/-- C7: the derived filename is the sanitised title, one `" - "`
separator, the sanitised artist and the fixed `".mp3"` extension; both
components hold only alphanumeric characters and spaces with no
trailing whitespace, and the separator occurs at exactly one position
of the result. -/
theorem safe_filename_props (title artist : Str) :
    download_filename title artist =
        sanitize title ++ " - ".toList ++ sanitize artist ++ ".mp3".toList ∧
      (sanitize title).all is_allowed = true ∧
      (sanitize artist).all is_allowed = true ∧
      no_trailing_ws (sanitize title) = true ∧
      no_trailing_ws (sanitize artist) = true ∧
      countOccur " - ".toList (download_filename title artist) = 1 := by
  refine ⟨rfl, ?_, ?_, no_trailing_ws_py_rstrip _, no_trailing_ws_py_rstrip _, ?_⟩
  · exact List.all_eq_true.mpr fun c hc => mem_sanitize_allowed title c hc
  · exact List.all_eq_true.mpr fun c hc => mem_sanitize_allowed artist c hc
  · have hy : '-' ∉ sanitize artist ++ ".mp3".toList := by
      intro h
      rcases List.mem_append.mp h with h | h
      · exact not_dash_mem_sanitize artist h
      · exact absurd h (by decide)
    have := countOccur_sep_once (sanitize title) (sanitize artist ++ ".mp3".toList)
      (not_dash_mem_sanitize title) hy
    unfold download_filename
    simpa [List.append_assoc] using this

/-! ## The handlers as effect traces

Each handler is embedded as a pure function from its inputs — the
callback payload, the metadata the external services returned, the
result of the downloader call, the on-disk file size, and whether the
chat transport accepts the attachment — to the list of observable
effects it performs, in program order. `Effect.raise` marks a Python
exception escaping the handler (caught only by the bot-level
`error_handler`). -/

/-- An inline keyboard button: its label and its callback payload. -/
structure Button where
  label : Str
  callback_data : Str
deriving DecidableEq

/-- The quality-menu caption of `youtube_handler` (src/handlers.py lines
94-98): title, uploader, and `duration//60`, `duration%60`. -/
structure MenuCaption where
  title : Str
  uploader : Str
  mins : Int
  secs : Int
deriving DecidableEq

/-- An observable effect of a handler run. -/
inductive Effect where
  | replyText (text : Str)
  | editText (text : Str)
  | editMenu (caption : MenuCaption) (keyboard : List Button)
  | showMenu (text : Str) (keyboard : List Button)
  | answerCallback
  | fetchVideo (url : Str) (quality : Str) (audioOnly : Bool)
  | fetchSongDetails (url : Str)
  | createFile (path : Str) (size : Nat)
  | sendFile (path : Str) (asAudio : Bool)
  | sendError (path : Str)
  | deleteFile (path : Str)
  | deleteMessage
  | raise
deriving DecidableEq

/-- A call of the fetch adapter `yt_dl.download`. -/
def Effect.is_fetch : Effect → Bool
  | .fetchVideo _ _ _ => true
  | _ => false

/-- A successful or attempted delivery of the artifact to the user. -/
def Effect.is_send : Effect → Bool
  | .sendFile _ _ => true
  | .sendError _ => true
  | _ => false

/-- A `clean_up` (file deletion) call. -/
def Effect.is_delete : Effect → Bool
  | .deleteFile _ => true
  | _ => false

/-- A choice menu presented to the user. -/
def Effect.is_menu : Effect → Bool
  | .editMenu _ _ => true
  | .showMenu _ _ => true
  | _ => false

/-- A change of the chat message's text (edit or menu). -/
def Effect.is_edit : Effect → Bool
  | .editText _ => true
  | .editMenu _ _ => true
  | .showMenu _ _ => true
  | _ => false

/-- A file created or removed on disk. -/
def Effect.is_file_op : Effect → Bool
  | .createFile _ _ => true
  | .deleteFile _ => true
  | _ => false

/-! ## Config (src/config.py) -/

/-- `Config.MAX_FILE_SIZE` default: `int(os.getenv("MAX_FILE_SIZE", "52428800"))`. -/
def MAX_FILE_SIZE : Nat := 52428800

/-- `Config.DOWNLOAD_PATH` default: `os.getenv("DOWNLOAD_PATH", "./downloads")`. -/
def DOWNLOAD_PATH : Str := "./downloads".toList

/-- `os.path.join(dir, name)` for a relative `name` and a `dir` without a
trailing separator (the shapes the code produces). -/
def os_path_join (dir name : Str) : Str :=
  dir ++ '/' :: name

/-! ## youtube_handler (src/handlers.py lines 53-101) -/

/-- One entry of `info['formats']['video']` as `_parse_formats` builds it. -/
structure VideoFormat where
  format_id : Str
  ext : Str
  quality : Str
  filesize : Nat
deriving DecidableEq

/-- The dictionary `yt_dl.get_info` returns: `duration` is optional
(yt-dlp may return `None`). -/
structure VideoInfo where
  title : Str
  duration : Option Int
  uploader : Str
  videoFormats : List VideoFormat
  audioFormats : List VideoFormat
deriving DecidableEq

/-- The duration gate `info['duration'] and info['duration'] > 600`
(line 75) as a Python truthiness test: `None` and `0` are falsy, so the
whole expression is truthy exactly when the duration is a non-zero
number greater than 600. -/
def durationGuard : Option Int → Bool
  | none => false
  | some n => if n = 0 then false else decide (n > 600)

/-- The caption of the quality menu (lines 94-98). The f-string computes
`info['duration']//60` and `info['duration']%60`, which raise `TypeError`
when the duration is `None`; `Int.fdiv`/`Int.fmod` match Python's floor
division and modulo. -/
def menu_caption (i : VideoInfo) : Option MenuCaption :=
  match i.duration with
  | none => none
  | some d => some ⟨i.title, i.uploader, Int.fdiv d 60, Int.fmod d 60⟩

/-- The quality keyboard (lines 80-90): 720p+480p buttons when a 720p
progressive format exists, otherwise 480p only, and always an
audio-only button. -/
def yt_keyboard (i : VideoInfo) (url : Str) : List Button :=
  (if i.videoFormats.isEmpty then []
   else
     (if i.videoFormats.any (fun f => f.quality == "720p".toList)
      then ["720".toList, "480".toList] else ["480".toList]).map
       (fun q => ⟨"📹 ".toList ++ q ++ "p".toList,
         quality_payload "yt".toList q url⟩))
  ++ [⟨"🎵 Audio Only (MP3)".toList, quality_payload "yt".toList "audio".toList url⟩]

def msg_invalid_yt_url : Str := "❌ Invalid YouTube URL".toList

def msg_fetching_info : Str := "🔍 Fetching video info...".toList

def msg_fetch_failed : Str :=
  "❌ Failed to fetch video info. Check if the video is available.".toList

def msg_too_long : Str := "⚠️ Video too long (max 10 minutes for free tier)".toList

/-- `youtube_handler` for a given url (the `/yt` argument or the detected
link), with `info` the result of `yt_dl.get_info(url)`. The argument-missing
branch (lines 55-59) is elided: `url` is the already-extracted argument. -/
def youtube_handler (url : Str) (info : Option VideoInfo) : List Effect :=
  if !(containsSub "youtube.com".toList url) && !(containsSub "youtu.be".toList url)
  then [Effect.replyText msg_invalid_yt_url]
  else
    Effect.replyText msg_fetching_info ::
    match info with
    | none => [Effect.editText msg_fetch_failed]
    | some i =>
      if durationGuard i.duration then [Effect.editText msg_too_long]
      else
        match menu_caption i with
        | none => [Effect.raise]
        | some cap => [Effect.editMenu cap (yt_keyboard i url)]

/-- C4: a video whose metadata duration is present and over 600 seconds
is rejected with the too-long message before anything else happens: the
trace carries no `fetchVideo` (the fetch adapter is never invoked) and
no quality menu. -/
theorem duration_gate_rejects_before_fetch (url : Str) (i : VideoInfo) (d : Int)
    (hu : containsSub "youtube.com".toList url = true)
    (hd : i.duration = some d) (h600 : 600 < d) :
    youtube_handler url (some i) =
        [Effect.replyText msg_fetching_info, Effect.editText msg_too_long] ∧
      (youtube_handler url (some i)).all
        (fun e => !(e.is_fetch || e.is_menu)) = true := by
  have hg : durationGuard i.duration = true := by
    rw [hd]
    show (if d = 0 then false else decide (d > 600)) = true
    rw [if_neg (by omega : ¬ d = 0)]
    exact decide_eq_true h600
  have ht : youtube_handler url (some i) =
      [Effect.replyText msg_fetching_info, Effect.editText msg_too_long] := by
    unfold youtube_handler
    rw [hu]
    simp [hg]
  exact ⟨ht, by rw [ht]; rfl⟩

/-- C4 witness: at duration 601 the handler stops at the too-long
message, fetching nothing and presenting no menu. -/
theorem duration_gate_witness :
    youtube_handler "https://youtube.com/watch?v=abc".toList
        (some (VideoInfo.mk "A Title".toList (some 601) "Someone".toList [] [])) =
        [Effect.replyText msg_fetching_info, Effect.editText msg_too_long] ∧
      (youtube_handler "https://youtube.com/watch?v=abc".toList
        (some (VideoInfo.mk "A Title".toList (some 601) "Someone".toList [] []))).all
        (fun e => !(e.is_fetch || e.is_menu)) = true :=
  duration_gate_rejects_before_fetch _ _ 601 (by decide) rfl (by decide)

/-- C9: a missing (`None`) duration is not rejected by the gate
(`None and ...` is falsy), and the handler then raises from the caption
arithmetic `info['duration']//60` instead of presenting the menu: the
caption, hence the menu, is well-defined exactly when the duration is a
number. -/
theorem none_duration_not_gated (url : Str) (i : VideoInfo)
    (hu : containsSub "youtube.com".toList url = true)
    (hd : i.duration = none) :
    durationGuard i.duration = false ∧
      youtube_handler url (some i) =
        [Effect.replyText msg_fetching_info, Effect.raise] ∧
      (∀ j : VideoInfo, (menu_caption j).isSome = j.duration.isSome) := by
  refine ⟨by rw [hd]; rfl, ?_, ?_⟩
  · have hg : durationGuard i.duration = false := by rw [hd]; rfl
    have hc : menu_caption i = none := by unfold menu_caption; rw [hd]
    unfold youtube_handler
    rw [hu]
    simp [hg, hc]
  · intro j
    unfold menu_caption
    cases j.duration <;> rfl

/-- C9 witness: a concrete metadata response without a duration reaches
the raising branch, not the too-long rejection and not the menu. -/
theorem none_duration_witness :
    durationGuard (VideoInfo.mk "A Title".toList none "Someone".toList [] []).duration
        = false ∧
      youtube_handler "https://youtube.com/watch?v=abc".toList
        (some (VideoInfo.mk "A Title".toList none "Someone".toList [] [])) =
        [Effect.replyText msg_fetching_info, Effect.raise] ∧
      (∀ j : VideoInfo, (menu_caption j).isSome = j.duration.isSome) :=
  none_duration_not_gated "https://youtube.com/watch?v=abc".toList
    (VideoInfo.mk "A Title".toList none "Someone".toList [] []) (by decide) rfl

/-! ## quality_callback (src/handlers.py lines 157-200) -/

/-- The external world of one `quality_callback` run: what
`yt_dl.download` returns, what `os.path.getsize` reports for that path,
and whether `reply_audio`/`reply_video` raises. -/
structure CallbackEnv where
  downloadResult : Option Str
  fileSize : Nat
  sendFails : Bool
deriving DecidableEq

def msg_downloading (quality : Str) : Str :=
  "⬇️ Downloading in ".toList ++ quality ++ "p... This may take a moment.".toList

def msg_yt_download_failed : Str :=
  "❌ Download failed. Video may be restricted or too large.".toList

def msg_too_large : Str :=
  "❌ File too large to send via Telegram (limit: 50MB)".toList

def msg_send_failed : Str := "❌ Failed to send file".toList

/-- `quality_callback`: answer the callback, split the payload on `'_'`,
return silently on fewer than 4 parts, otherwise download, enforce the
size ceiling, send, and clean up. On a send exception the `except`
branch only edits the message (lines 198-200); the `clean_up` call sits
inside the `try` after the send (line 196). -/
def quality_callback (data : Str) (env : CallbackEnv) (maxFileSize : Nat) :
    List Effect :=
  Effect.answerCallback ::
  (let parts := pySplitChar '_' data
   if parts.length < 4 then []
   else
     let quality := parts.getD 2 []
     let url := pyJoin '_' (parts.drop 3)
     let audioOnly := quality == "audio".toList
     Effect.editText (msg_downloading quality) ::
     Effect.fetchVideo url quality audioOnly ::
     match env.downloadResult with
     | none => [Effect.editText msg_yt_download_failed]
     | some path =>
       if env.fileSize > maxFileSize then
         [Effect.deleteFile path, Effect.editText msg_too_large]
       else if env.sendFails then
         [Effect.sendError path, Effect.editText msg_send_failed]
       else
         [Effect.sendFile path audioOnly, Effect.deleteFile path,
          Effect.deleteMessage])

/-- C10: a payload that splits into fewer than 4 parts makes the handler
return right after answering the callback: nothing is fetched, no file
is touched, and no message text is changed. -/
theorem malformed_payload_ignored (data : Str) (env : CallbackEnv)
    (maxFileSize : Nat) (h : (pySplitChar '_' data).length < 4) :
    quality_callback data env maxFileSize = [Effect.answerCallback] ∧
      (quality_callback data env maxFileSize).all
        (fun e => !(e.is_fetch || e.is_file_op || e.is_edit)) = true := by
  have ht : quality_callback data env maxFileSize = [Effect.answerCallback] := by
    unfold quality_callback
    rw [if_pos h]
  exact ⟨ht, by rw [ht]; rfl⟩

/-- C10 witness: the two-part payload `"quality_yt"` is ignored. -/
theorem malformed_payload_ignored_witness :
    quality_callback "quality_yt".toList (CallbackEnv.mk none 0 false) MAX_FILE_SIZE
        = [Effect.answerCallback] ∧
      (quality_callback "quality_yt".toList (CallbackEnv.mk none 0 false)
        MAX_FILE_SIZE).all
        (fun e => !(e.is_fetch || e.is_file_op || e.is_edit)) = true :=
  malformed_payload_ignored "quality_yt".toList (CallbackEnv.mk none 0 false)
    MAX_FILE_SIZE (by decide)

/-- C1: when the transport raises while sending the attachment, the
handler's `except` branch only edits the message: the trace of a
successful download followed by a failed send contains no `deleteFile`,
so the artifact is leaked, contradicting the cleanup contract. The
concrete run below downloads `video.mp4` (1000 bytes, under the
ceiling) and the send raises. -/
theorem send_failure_skips_cleanup :
    quality_callback
        (quality_payload "yt".toList "720".toList "https://youtu.be/XXXX".toList)
        (CallbackEnv.mk (some "./downloads/video.mp4".toList) 1000 true)
        MAX_FILE_SIZE =
      [Effect.answerCallback, Effect.editText (msg_downloading "720".toList),
       Effect.fetchVideo "https://youtu.be/XXXX".toList "720".toList false,
       Effect.sendError "./downloads/video.mp4".toList,
       Effect.editText msg_send_failed] ∧
    (quality_callback
        (quality_payload "yt".toList "720".toList "https://youtu.be/XXXX".toList)
        (CallbackEnv.mk (some "./downloads/video.mp4".toList) 1000 true)
        MAX_FILE_SIZE).all (fun e => !e.is_delete) = true := by
  constructor <;> decide

/-! ## SaavnDownloader (src/saavn-downloader.py) -/

/-- The dictionary `get_song_details` returns, restricted to the fields
`download_song` reads. -/
structure SongData where
  title : Str
  artist : Str
  album : Str
  duration : Option Int
  download_url : Option Str
deriving DecidableEq

/-- The response of `requests.get(download_url, ..., stream=True)`:
whether `raise_for_status` passes, the declared content-length header
(`none` when the server omits it), the number of body bytes the stream
yields (the partial count when the write raises), and whether an
exception interrupts the body write. -/
structure HttpResponse where
  ok : Bool
  contentLength : Option Nat
  bodySize : Nat
  writeRaises : Bool
deriving DecidableEq

/-- `os.path.join(self.download_path, filename)` (line 87). -/
def song_file_path (song : SongData) : Str :=
  os_path_join DOWNLOAD_PATH (download_filename song.title song.artist)

/-- `SaavnDownloader.download_song` (lines 73-118): fail fast without a
download url; abort before creating the file when `raise_for_status`
raises or when `int(response.headers.get('content-length', 0))` — 0
when the header is absent — exceeds the ceiling; delete the partial
file when an exception interrupts the write; otherwise write the body
and return the path (a `_add_metadata` failure is swallowed and has no
observable effect). -/
def download_song (song : SongData) (resp : HttpResponse) (maxFileSize : Nat) :
    Option Str × List Effect :=
  match song.download_url with
  | none => (none, [])
  | some _ =>
    if !resp.ok then (none, [])
    else if resp.contentLength.getD 0 > maxFileSize then (none, [])
    else if resp.writeRaises then
      (none, [Effect.createFile (song_file_path song) resp.bodySize,
              Effect.deleteFile (song_file_path song)])
    else (some (song_file_path song),
          [Effect.createFile (song_file_path song) resp.bodySize])

def msg_downloading_song : Str := "⬇️ Downloading song...".toList

def msg_details_failed : Str := "❌ Failed to get song details".toList

def msg_saavn_download_failed : Str := "❌ Download failed".toList

def msg_send_audio_failed : Str := "❌ Failed to send audio".toList

/-- `format_selection` (lines 202-234): answer, decode the payload, edit
the message, look the song up, download it, and send the audio. As in
`quality_callback`, the `clean_up` call sits inside the `try` after the
send; the `except` branch only edits the message. -/
def format_selection (data : Str) (details : Option SongData)
    (resp : HttpResponse) (maxFileSize : Nat) (sendFails : Bool) : List Effect :=
  Effect.answerCallback ::
  Effect.editText msg_downloading_song ::
  Effect.fetchSongDetails (decode_format_payload data) ::
  match details with
  | none => [Effect.editText msg_details_failed]
  | some song =>
    match download_song song resp maxFileSize with
    | (none, fx) => fx ++ [Effect.editText msg_saavn_download_failed]
    | (some path, fx) =>
      fx ++
      (if sendFails then
         [Effect.sendError path, Effect.editText msg_send_audio_failed]
       else
         [Effect.sendFile path true, Effect.deleteFile path,
          Effect.deleteMessage])

theorem download_song_content_length_abort (song : SongData)
    (resp : HttpResponse) (maxFileSize n : Nat)
    (hurl : song.download_url.isSome = true) (hok : resp.ok = true)
    (hn : resp.contentLength = some n) (hgt : n > maxFileSize) :
    download_song song resp maxFileSize = (none, []) := by
  obtain ⟨du, hdu⟩ := Option.isSome_iff_exists.mp hurl
  unfold download_song
  rw [hdu]
  simp [hok, hn, hgt]

theorem download_song_no_header_success (song : SongData)
    (resp : HttpResponse) (maxFileSize : Nat)
    (hurl : song.download_url.isSome = true) (hok : resp.ok = true)
    (hn : resp.contentLength = none) (hw : resp.writeRaises = false) :
    download_song song resp maxFileSize =
      (some (song_file_path song),
       [Effect.createFile (song_file_path song) resp.bodySize]) := by
  obtain ⟨du, hdu⟩ := Option.isSome_iff_exists.mp hurl
  unfold download_song
  rw [hdu]
  simp [hok, hn, hw]

/-- C6: a declared content-length over the ceiling makes `download_song`
return `None` before any file exists (no partial file), while an absent
content-length header bypasses the pre-check entirely: the download
proceeds and succeeds whatever the actual body size is. -/
theorem content_length_gate (song : SongData) (resp : HttpResponse)
    (maxFileSize : Nat) (hurl : song.download_url.isSome = true)
    (hok : resp.ok = true) :
    (∀ n, resp.contentLength = some n → n > maxFileSize →
      download_song song resp maxFileSize = (none, [])) ∧
    (resp.contentLength = none → resp.writeRaises = false →
      download_song song resp maxFileSize =
        (some (song_file_path song),
         [Effect.createFile (song_file_path song) resp.bodySize])) :=
  ⟨fun n hn hgt => download_song_content_length_abort song resp maxFileSize n
      hurl hok hn hgt,
   fun hn hw => download_song_no_header_success song resp maxFileSize
      hurl hok hn hw⟩

def c6_song : SongData :=
  ⟨"Song".toList, "Artist".toList, "Album".toList, some 200,
   some "https://cdn/file.mp3".toList⟩

/-- C6 witness: with a declared content-length of 52428801 the download
fails with no file event; with no content-length header a 52428801-byte
body is written and the call succeeds. -/
theorem content_length_gate_witness :
    download_song c6_song (HttpResponse.mk true (some 52428801) 0 false)
        MAX_FILE_SIZE = (none, []) ∧
      download_song c6_song (HttpResponse.mk true none 52428801 false)
        MAX_FILE_SIZE =
        (some (song_file_path c6_song),
         [Effect.createFile (song_file_path c6_song) 52428801]) :=
  ⟨(content_length_gate c6_song (HttpResponse.mk true (some 52428801) 0 false)
      MAX_FILE_SIZE (by decide) rfl).1 52428801 rfl (by decide),
   (content_length_gate c6_song (HttpResponse.mk true none 52428801 false)
      MAX_FILE_SIZE (by decide) rfl).2 rfl rfl⟩

def c3_song : SongData :=
  ⟨"Song".toList, "Artist".toList, "Album".toList, some 200,
   some "https://cdn/file.mp3".toList⟩

def c3_resp : HttpResponse := ⟨true, none, 52428801, false⟩

/-- C3 counterexample: on the Saavn path an artifact of 52428801 bytes —
over the 52428800 ceiling — whose response declares no content-length
is written and then sent to the user: the run reaches the Done tail
(send, cleanup, delete message) with no size rejection, so the claimed
guarantee does not hold on the Saavn download path. -/
theorem oversized_saavn_artifact_sent :
    format_selection "format_saavn_https://song".toList (some c3_song) c3_resp
        MAX_FILE_SIZE false =
      [Effect.answerCallback, Effect.editText msg_downloading_song,
       Effect.fetchSongDetails "https://song".toList,
       Effect.createFile (song_file_path c3_song) 52428801,
       Effect.sendFile (song_file_path c3_song) true,
       Effect.deleteFile (song_file_path c3_song), Effect.deleteMessage] ∧
    52428801 > MAX_FILE_SIZE := by
  constructor <;> decide

/-- C3 amended: the oversized-artifact guarantee holds on the YouTube
path — any run of `quality_callback` whose download returns a path with
an on-disk size over the ceiling deletes the file, reports the
too-large rejection and sends nothing — while on the Saavn path the
only size gate is the declared content-length pre-check: when the
header exceeds the ceiling, `download_song` fails with no artifact
(an oversized body without that header is delivered, as the
counterexample shows). -/
theorem size_gate_amended :
    (∀ (data : Str) (env : CallbackEnv) (maxFileSize : Nat) (path : Str),
      ¬ (pySplitChar '_' data).length < 4 →
      env.downloadResult = some path →
      env.fileSize > maxFileSize →
      Effect.deleteFile path ∈ quality_callback data env maxFileSize ∧
      Effect.editText msg_too_large ∈ quality_callback data env maxFileSize ∧
      (quality_callback data env maxFileSize).all (fun e => !e.is_send) = true) ∧
    (∀ (song : SongData) (resp : HttpResponse) (maxFileSize n : Nat),
      song.download_url.isSome = true → resp.ok = true →
      resp.contentLength = some n → n > maxFileSize →
      download_song song resp maxFileSize = (none, [])) := by
  constructor
  · intro data env maxFileSize path h4 hd hs
    have ht : quality_callback data env maxFileSize =
        Effect.answerCallback ::
        Effect.editText (msg_downloading ((pySplitChar '_' data).getD 2 [])) ::
        Effect.fetchVideo (pyJoin '_' ((pySplitChar '_' data).drop 3))
          ((pySplitChar '_' data).getD 2 [])
          ((pySplitChar '_' data).getD 2 [] == "audio".toList) ::
        [Effect.deleteFile path, Effect.editText msg_too_large] := by
      simp only [quality_callback]
      rw [if_neg h4, hd]
      simp [hs]
    rw [ht]
    exact ⟨by simp, by simp, rfl⟩
  · intro song resp maxFileSize n hurl hok hn hgt
    exact download_song_content_length_abort song resp maxFileSize n hurl hok hn hgt

/-- C3 amended witness: a concrete oversized YouTube download is deleted
and rejected without a send, and a concrete Saavn response declaring
52428801 bytes fails with no artifact. -/
theorem size_gate_amended_witness :
    (Effect.deleteFile "./downloads/video.mp4".toList ∈
        quality_callback
          (quality_payload "yt".toList "720".toList "https://youtu.be/XXXX".toList)
          (CallbackEnv.mk (some "./downloads/video.mp4".toList) 52428801 false)
          MAX_FILE_SIZE ∧
      Effect.editText msg_too_large ∈
        quality_callback
          (quality_payload "yt".toList "720".toList "https://youtu.be/XXXX".toList)
          (CallbackEnv.mk (some "./downloads/video.mp4".toList) 52428801 false)
          MAX_FILE_SIZE ∧
      (quality_callback
          (quality_payload "yt".toList "720".toList "https://youtu.be/XXXX".toList)
          (CallbackEnv.mk (some "./downloads/video.mp4".toList) 52428801 false)
          MAX_FILE_SIZE).all (fun e => !e.is_send) = true) ∧
    download_song c3_song (HttpResponse.mk true (some 52428801) 0 false)
        MAX_FILE_SIZE = (none, []) :=
  ⟨size_gate_amended.1
      (quality_payload "yt".toList "720".toList "https://youtu.be/XXXX".toList)
      (CallbackEnv.mk (some "./downloads/video.mp4".toList) 52428801 false)
      MAX_FILE_SIZE "./downloads/video.mp4".toList (by decide) rfl (by decide),
   size_gate_amended.2 c3_song (HttpResponse.mk true (some 52428801) 0 false)
      MAX_FILE_SIZE 52428801 (by decide) rfl rfl (by decide)⟩

/-- A raw result of the catalog's search endpoint, holding the fields
the projection reads (an absent key is `none` or `[]`). -/
structure RawSong where
  id : Option Str
  name : Option Str
  primaryArtists : List Str
  album : Option Str
  year : Option Int
  duration : Option Int
  image : List Str
  url : Option Str
deriving DecidableEq

/-- The projected song dictionary `search` appends (lines 29-38). -/
structure SongMeta where
  id : Option Str
  title : Option Str
  artist : Str
  album : Str
  year : Option Int
  duration : Option Int
  image : Option Str
  url : Option Str
deriving DecidableEq

/-- Python `", ".join(names)`. -/
def py_join_comma : List Str → Str
  | [] => []
  | [a] => a
  | a :: rest => a ++ ',' :: ' ' :: py_join_comma rest

/-- One raw result through the `search` projection: artists joined with
`", "`, album defaulting to `"Unknown"`, thumbnail the last (`[-1]`)
image entry when the list is non-empty. -/
def project_song (s : RawSong) : SongMeta :=
  ⟨s.id, s.name, py_join_comma s.primaryArtists, s.album.getD "Unknown".toList,
   s.year, s.duration, s.image.getLast?, s.url⟩

/-- `SaavnDownloader.search` (lines 15-42): a transport/parse error or a
missing `data.results` (modelled `none`) yields `[]`; otherwise every
raw result is projected, in order — the `limit` parameter is only
forwarded to the API, the function itself does not truncate. -/
def saavn_search (apiResults : Option (List RawSong)) : List SongMeta :=
  match apiResults with
  | none => []
  | some raws => raws.map project_song

/-- Python `str(value)` for the `Optional` fields the f-strings embed
(`None` renders as `"None"`). -/
def py_str_opt : Option Str → Str
  | some s => s
  | none => "None".toList

/-- One button of the saavn selection menu (lines 148-152): label
`f"🎵 {song['title']} - {song['artist']}"`, payload
`f"format_saavn_{song['url']}"`. -/
def song_button (s : SongMeta) : Button :=
  ⟨"🎵 ".toList ++ py_str_opt s.title ++ " - ".toList ++ s.artist,
   format_payload (py_str_opt s.url)⟩

def msg_no_results : Str := "❌ No results found".toList

def msg_select_song : Str := "🎵 Select a song:".toList

/-- The search branch of `saavn_handler` (lines 140-155), from the
`results = saavn_dl.search(query)` call onward: no results edits the
failure message, otherwise the menu shows a button for each of
`results[:5]`. -/
def saavn_search_branch (results : List SongMeta) : List Effect :=
  if results.isEmpty then [Effect.editText msg_no_results]
  else [Effect.showMenu msg_select_song ((results.take 5).map song_button)]

/-- C8: a raw catalog response with more than 5 well-formed results
yields a menu of exactly 5 buttons — the first 5 elements, in order, of
the sequence `search` returned. -/
theorem search_presents_first_five (raws : List RawSong)
    (h : 5 < raws.length) :
    saavn_search_branch (saavn_search (some raws)) =
        [Effect.showMenu msg_select_song
          (((saavn_search (some raws)).take 5).map song_button)] ∧
      (((saavn_search (some raws)).take 5).map song_button).length = 5 := by
  constructor
  · have hne : (saavn_search (some raws)).isEmpty = false := by
      unfold saavn_search
      cases raws with
      | nil => simp at h
      | cons a l => simp
    unfold saavn_search_branch
    rw [hne]
    simp
  · rw [List.length_map, List.length_take]
    unfold saavn_search
    rw [List.length_map]
    exact Nat.min_eq_left (Nat.le_of_lt h)

def mk_raw (t : Str) : RawSong :=
  ⟨some t, some t, [t], none, none, some 100, [], some t⟩

/-- C8 witness: seven raw results yield exactly the five first projected
songs as buttons. -/
theorem search_presents_first_five_witness :
    saavn_search_branch (saavn_search (some
        [mk_raw "a".toList, mk_raw "b".toList, mk_raw "c".toList,
         mk_raw "d".toList, mk_raw "e".toList, mk_raw "f".toList,
         mk_raw "g".toList])) =
        [Effect.showMenu msg_select_song
          (((saavn_search (some
            [mk_raw "a".toList, mk_raw "b".toList, mk_raw "c".toList,
             mk_raw "d".toList, mk_raw "e".toList, mk_raw "f".toList,
             mk_raw "g".toList])).take 5).map song_button)] ∧
      (((saavn_search (some
        [mk_raw "a".toList, mk_raw "b".toList, mk_raw "c".toList,
         mk_raw "d".toList, mk_raw "e".toList, mk_raw "f".toList,
         mk_raw "g".toList])).take 5).map song_button).length = 5 :=
  search_presents_first_five
    [mk_raw "a".toList, mk_raw "b".toList, mk_raw "c".toList,
     mk_raw "d".toList, mk_raw "e".toList, mk_raw "f".toList,
     mk_raw "g".toList] (by decide)
